import Mathlib

/-!
Verification development for the power-switch-pro-mcp repository.

The repository contains two MCP transports (a standard-I/O dispatch server in
src/power_switch_pro_mcp/server.py and an HTTP dispatch server in
src/power_switch_pro_mcp/http_server.py) plus an interactive setup script
(scripts/setup_ecowitt_autoping.py).  The external client library
(power_switch_pro) is modelled as an oracle: a structure of response values,
one per client-library call the repository can make.  Each handler is embedded
as a function from the environment, the cached device handle, the oracle and
its arguments to the produced result, the trace of client-library calls it
performed, and the new cached handle.  Python exceptions are modelled with an
explicit error type threaded through an exception monad.
-/

/-- Python exception classes relevant to this repository: PowerSwitchError
(the device-layer error class caught first), ValueError (raised by get_device
on missing configuration and by int() on bad literals), and any other
exception. -/
inductive PyErr where
  | psErr (msg : String)
  | valueError (msg : String)
  | otherErr (msg : String)
deriving DecidableEq

instance {ε α : Type} [DecidableEq ε] [DecidableEq α] : DecidableEq (Except ε α) := fun x y =>
  match x, y with
  | .error a, .error b =>
      if h : a = b then .isTrue (h ▸ rfl) else .isFalse (fun hh => h (Except.error.inj hh))
  | .error _, .ok _ => .isFalse (fun hh => Except.noConfusion hh)
  | .ok _, .error _ => .isFalse (fun hh => Except.noConfusion hh)
  | .ok a, .ok b =>
      if h : a = b then .isTrue (h ▸ rfl) else .isFalse (fun hh => h (Except.ok.inj hh))

/-- Python values passed through by this repository: None, booleans, integers,
strings, lists and string-keyed dicts. -/
inductive PyVal where
  | noneV
  | bool (b : Bool)
  | int (i : Int)
  | str (s : String)
  | list (xs : List PyVal)
  | dict (kvs : List (String × PyVal))

mutual

/-- Python repr() of a value, as used by str() on containers. -/
def pyRepr : PyVal → String
  | .noneV => "None"
  | .bool true => "True"
  | .bool false => "False"
  | .int i => toString i
  | .str s => "\x27" ++ s ++ "\x27"
  | .list xs => "[" ++ pyReprList xs ++ "]"
  | .dict kvs => "\x7b" ++ pyReprDict kvs ++ "\x7d"

/-- repr of list elements joined with a comma and a space. -/
def pyReprList : List PyVal → String
  | [] => ""
  | [x] => pyRepr x
  | x :: y :: xs => pyRepr x ++ ", " ++ pyReprList (y :: xs)

/-- repr of dict items joined with a comma and a space. -/
def pyReprDict : List (String × PyVal) → String
  | [] => ""
  | [(k, v)] => "\x27" ++ k ++ "\x27: " ++ pyRepr v
  | (k, v) :: p :: xs => "\x27" ++ k ++ "\x27: " ++ pyRepr v ++ ", " ++ pyReprDict (p :: xs)

end

/-- Python str.lower() over the characters of the string. -/
def strLower (s : String) : String := String.mk (s.data.map Char.toLower)

/-- Python str.strip(): drop leading and trailing whitespace. -/
def strTrim (s : String) : String :=
  String.mk (((s.data.dropWhile Char.isWhitespace).reverse.dropWhile Char.isWhitespace).reverse)

/-- Decimal value of a digit character. -/
def charDigit (c : Char) : Option Nat :=
  if c.isDigit then some (c.toNat - 48) else Option.none

/-- Decimal value of a nonempty digit string. -/
def parseDigits (cs : List Char) : Option Nat :=
  match cs with
  | [] => Option.none
  | _ => cs.foldl (fun acc c =>
      match acc, charDigit c with
      | some a, some d => some (a * 10 + d)
      | _, _ => Option.none) (some 0)

/-- The integer literals Python int() accepts in this repository: an optional
sign followed by decimal digits. -/
def strToInt (s : String) : Option Int :=
  match s.data with
  | '-' :: rest => (parseDigits rest).map (fun n => -(n : Int))
  | '+' :: rest => (parseDigits rest).map (fun n => (n : Int))
  | cs => (parseDigits cs).map (fun n => (n : Int))

/-- Python str() of a value, as interpolated by f-strings. -/
def pyStr : PyVal → String
  | .str s => s
  | v => pyRepr v

/-- Python truthiness of a value. -/
def pyTruthy : PyVal → Bool
  | .noneV => false
  | .bool b => b
  | .int i => i != 0
  | .str s => s != ""
  | .list xs => !xs.isEmpty
  | .dict kvs => !kvs.isEmpty

/-- First binding of a key in an association list (Python dicts in this
repository are only ever read through .get). -/
def lookupKey : List (String × PyVal) → String → Option PyVal
  | [], _ => Option.none
  | (k, v) :: rest, key => if k = key then some v else lookupKey rest key

/-- Python dict.get(key, default); attribute error (message abridged) when the
receiver is not a dict. -/
def pyGet (v : PyVal) (key : String) (dflt : PyVal) : Except PyErr PyVal :=
  match v with
  | .dict kvs => .ok ((lookupKey kvs key).getD dflt)
  | _ => .error (.otherErr "object has no attribute \x27get\x27")

/-- Python subscript v[0]: head of a list, first character of a string,
IndexError / TypeError otherwise (messages abridged). -/
def pyIndex0 : PyVal → Except PyErr PyVal
  | .list (x :: _) => .ok x
  | .list [] => .error (.otherErr "list index out of range")
  | .str s =>
      match s.data with
      | c :: _ => .ok (.str (String.mk [c]))
      | [] => .error (.otherErr "string index out of range")
  | _ => .error (.otherErr "object is not subscriptable")

/-- Python int(v) conversion for the values this repository can meet. -/
def pyToInt : PyVal → Except PyErr Int
  | .int i => .ok i
  | .bool b => .ok (if b then 1 else 0)
  | .str s =>
      match strToInt (strTrim s) with
      | some i => .ok i
      | Option.none =>
          .error (.valueError ("invalid literal for int() with base 10: \x27" ++ s ++ "\x27"))
  | _ => .error (.otherErr "int() argument must be a string or a number")

/-- Python v + 1 on a dynamic value (TypeError message abridged). -/
def pyAdd1 : PyVal → Except PyErr Int
  | .int i => .ok (i + 1)
  | .bool b => .ok ((if b then 1 else 0) + 1)
  | _ => .error (.otherErr "unsupported operand type(s) for +")

/-- Escaping performed by json.dumps on string values (backslash and quote;
the strings in this development contain nothing else needing escape). -/
def jsonEscape (s : String) : String :=
  String.mk (s.data.foldr
    (fun c acc =>
      if c = '\\' then '\\' :: '\\' :: acc
      else if c = '"' then '\\' :: '"' :: acc
      else c :: acc) [])

/-- Indentation of 2*n spaces, as produced by json.dumps(indent=2). -/
def jsonSpaces : Nat → String
  | 0 => ""
  | n + 1 => "  " ++ jsonSpaces n

mutual

/-- json.dumps(v, indent=2) at nesting level lvl. -/
def jsonDumpsAt : PyVal → Nat → String
  | .noneV, _ => "null"
  | .bool true, _ => "true"
  | .bool false, _ => "false"
  | .int i, _ => toString i
  | .str s, _ => "\"" ++ jsonEscape s ++ "\""
  | .list [], _ => "[]"
  | .list (x :: xs), lvl =>
      "[\n" ++ jsonItems (x :: xs) (lvl + 1) ++ "\n" ++ jsonSpaces lvl ++ "]"
  | .dict [], _ => "\x7b\x7d"
  | .dict (kv :: kvs), lvl =>
      "\x7b\n" ++ jsonFields (kv :: kvs) (lvl + 1) ++ "\n" ++ jsonSpaces lvl ++ "\x7d"

/-- Lines of a JSON array body. -/
def jsonItems : List PyVal → Nat → String
  | [], _ => ""
  | [x], lvl => jsonSpaces lvl ++ jsonDumpsAt x lvl
  | x :: y :: xs, lvl =>
      jsonSpaces lvl ++ jsonDumpsAt x lvl ++ ",\n" ++ jsonItems (y :: xs) lvl

/-- Lines of a JSON object body. -/
def jsonFields : List (String × PyVal) → Nat → String
  | [], _ => ""
  | [(k, v)], lvl => jsonSpaces lvl ++ "\"" ++ jsonEscape k ++ "\": " ++ jsonDumpsAt v lvl
  | (k, v) :: p :: xs, lvl =>
      jsonSpaces lvl ++ "\"" ++ jsonEscape k ++ "\": " ++ jsonDumpsAt v lvl ++ ",\n"
        ++ jsonFields (p :: xs) lvl

end

/-- json.dumps(v, indent=2) as called by server.py. -/
def json_dumps (v : PyVal) : String := jsonDumpsAt v 0

/-! The device accessor (get_device) — server.py lines 27-47 and
http_server.py lines 22-42; the two copies are textually identical. -/

/-- Process environment: os.getenv, absent variables give Option.none. -/
def Env : Type := String → Option String

/-- Python falsiness of an os.getenv result: None or the empty string. -/
def falsyEnv (v : Option String) : Bool :=
  match v with
  | Option.none => true
  | some s => s == ""

/-- The connection handle: the constructor arguments of PowerSwitchPro, the
only state of the external client object visible to this repository. -/
structure Handle where
  host : String
  username : String
  password : String
  use_https : Bool
deriving DecidableEq

/-- The ValueError message raised by get_device on missing configuration. -/
def configErrMsg : String :=
  "POWER_SWITCH_HOST and POWER_SWITCH_PASSWORD environment variables must be set"

/-- Construction of the PowerSwitchPro handle from environment values, as
performed by get_device when the cache is empty and the check passed. -/
def mkHandle (env : Env) : Handle :=
  { host := (env "POWER_SWITCH_HOST").getD ""
    username := (env "POWER_SWITCH_USERNAME").getD "admin"
    password := (env "POWER_SWITCH_PASSWORD").getD ""
    use_https := strLower ((env "POWER_SWITCH_USE_HTTPS").getD "false") == "true" }

/-- get_device: returns the cached handle when _device is set; otherwise reads
the four environment values, raises ValueError when host or password is falsy,
else constructs the handle and caches it.  The pair is (result, new cache). -/
def get_device (env : Env) (dev : Option Handle) : Except PyErr Handle × Option Handle :=
  match dev with
  | some d => (.ok d, some d)
  | Option.none =>
      if falsyEnv (env "POWER_SWITCH_HOST") || falsyEnv (env "POWER_SWITCH_PASSWORD") then
        (.error (.valueError configErrMsg), Option.none)
      else
        let h := mkHandle env
        (.ok h, some h)

/-- Instrumented harness: a sequence of get_device calls, each with its own
environment snapshot, threading the module-level cache and counting the calls
in which a handle was constructed (cache transitioned from unset to set). -/
def runCalls : List Env → Option Handle → List (Except PyErr Handle) × Option Handle × Nat
  | [], dev => ([], dev, 0)
  | env :: rest, dev =>
      let r := get_device env dev
      let tail := runCalls rest r.2
      (r.1 :: tail.1, tail.2.1,
        (if dev.isNone && r.2.isSome then 1 else 0) + tail.2.2)

/-! The client-library oracle and the call-trace monad. -/

/-- One client-library call made by a handler, with its arguments. -/
inductive DevCall where
  | on (i : Int)
  | off (i : Int)
  | cycle (i : Int)
  | state (i : Int)
  | allStates
  | readName (i : Int)
  | readLocked (i : Int)
  | setName (i : Int) (s : String)
  | voltage
  | current
  | power
  | energy
  | info
  | bulkOp (locked : Bool) (action : String)
  | apAdd (host : String) (outlet : Int) (enabled : Bool) (interval : Int) (retries : Int)
  | apList
  | apGet (id : Int)
  | apUpdate (id : Int) (host : Option String) (outlet : Option Int)
      (enabled : Option Bool) (interval : Option Int) (retries : Option Int)
  | apDelete (id : Int)
  | apEnable (id : Int)
  | apDisable (id : Int)
deriving DecidableEq

/-- The external client library as an oracle: the outcome of every call a
handler can make, either a returned value or a raised exception. -/
structure Device where
  onRes : Int → Except PyErr Unit
  offRes : Int → Except PyErr Unit
  cycleRes : Int → Except PyErr Unit
  stateRes : Int → Except PyErr Bool
  allStatesRes : Except PyErr (List Bool)
  nameRes : Int → Except PyErr String
  lockedRes : Int → Except PyErr Bool
  setNameRes : Int → String → Except PyErr Unit
  voltageRes : Except PyErr PyVal
  currentRes : Except PyErr PyVal
  powerRes : Except PyErr PyVal
  energyRes : Except PyErr PyVal
  infoRes : Except PyErr PyVal
  bulkRes : Bool → String → Except PyErr Unit
  apAddRes : String → Int → Bool → Int → Int → Except PyErr PyVal
  apListRes : Except PyErr (List PyVal)
  apGetRes : Int → Except PyErr PyVal
  apUpdateRes : Int → Option String → Option Int → Option Bool → Option Int →
      Option Int → Except PyErr Bool
  apDeleteRes : Int → Except PyErr Bool
  apEnableRes : Int → Except PyErr Bool
  apDisableRes : Int → Except PyErr Bool

/-- Handler-body computations: given the trace of client-library calls made so
far, produce either a value or a raised exception, together with the extended
trace.  A raised exception aborts the rest of the body, as in Python. -/
def M (α : Type) : Type := List DevCall → Except PyErr α × List DevCall

/-- Return for M. -/
def M.pure (a : α) : M α := fun tr => (.ok a, tr)

/-- Sequencing for M: run the first computation; on an exception the rest of
the body is skipped and the exception propagates. -/
def M.bind (x : M α) (f : α → M β) : M β := fun tr =>
  match x tr with
  | (.ok a, tr2) => f a tr2
  | (.error e, tr2) => (.error e, tr2)

instance : Monad M where
  pure := M.pure
  bind := M.bind

/-- Lift a pure Except computation (no client-library call) into M. -/
def liftE (e : Except PyErr α) : M α := fun tr => (e, tr)

/-- Perform one client-library call: record it and take the oracle outcome. -/
def emit (c : DevCall) (r : Except PyErr α) : M α := fun tr => (r, tr ++ [c])

theorem M.bind_eq (x : M α) (f : α → M β) : x >>= f = M.bind x f := rfl

theorem M.pure_eq (a : α) : (pure a : M α) = M.pure a := rfl

def devOn (d : Device) (i : Int) : M Unit := emit (.on i) (d.onRes i)

def devOff (d : Device) (i : Int) : M Unit := emit (.off i) (d.offRes i)

def devCycle (d : Device) (i : Int) : M Unit := emit (.cycle i) (d.cycleRes i)

def devState (d : Device) (i : Int) : M Bool := emit (.state i) (d.stateRes i)

def devAllStates (d : Device) : M (List Bool) := emit .allStates d.allStatesRes

def devName (d : Device) (i : Int) : M String := emit (.readName i) (d.nameRes i)

def devLocked (d : Device) (i : Int) : M Bool := emit (.readLocked i) (d.lockedRes i)

def devSetName (d : Device) (i : Int) (s : String) : M Unit := emit (.setName i s) (d.setNameRes i s)

def devVoltage (d : Device) : M PyVal := emit .voltage d.voltageRes

def devCurrent (d : Device) : M PyVal := emit .current d.currentRes

def devPower (d : Device) : M PyVal := emit .power d.powerRes

def devEnergy (d : Device) : M PyVal := emit .energy d.energyRes

def devInfo (d : Device) : M PyVal := emit .info d.infoRes

def devBulk (d : Device) (locked : Bool) (action : String) : M Unit :=
  emit (.bulkOp locked action) (d.bulkRes locked action)

def devApAdd (d : Device) (host : String) (outlet : Int) (enabled : Bool)
    (interval : Int) (retries : Int) : M PyVal :=
  emit (.apAdd host outlet enabled interval retries)
    (d.apAddRes host outlet enabled interval retries)

def devApList (d : Device) : M (List PyVal) := emit .apList d.apListRes

def devApGet (d : Device) (id : Int) : M PyVal := emit (.apGet id) (d.apGetRes id)

def devApUpdate (d : Device) (id : Int) (host : Option String) (outlet : Option Int)
    (enabled : Option Bool) (interval : Option Int) (retries : Option Int) : M Bool :=
  emit (.apUpdate id host outlet enabled interval retries)
    (d.apUpdateRes id host outlet enabled interval retries)

def devApDelete (d : Device) (id : Int) : M Bool := emit (.apDelete id) (d.apDeleteRes id)

def devApEnable (d : Device) (id : Int) : M Bool := emit (.apEnable id) (d.apEnableRes id)

def devApDisable (d : Device) (id : Int) : M Bool := emit (.apDisable id) (d.apDisableRes id)

/-! The standard-I/O dispatch — server.py call_tool (lines 337-515). -/

/-- The argument mapping of a tool call, restricted to the keys the declared
JSON schemas admit; a field is Option.none when the key is absent. -/
structure Args where
  outlet_id : Option Int := Option.none
  name : Option String := Option.none
  action : Option String := Option.none
  outlet_ids : Option (List Int) := Option.none
  host : Option String := Option.none
  enabled : Option Bool := Option.none
  interval : Option Int := Option.none
  retries : Option Int := Option.none
  entry_id : Option Int := Option.none

/-- Python arguments[key]: KeyError (whose str() is the quoted key) when the
key is absent. -/
def req (v : Option α) (key : String) : Except PyErr α :=
  match v with
  | some x => .ok x
  | Option.none => .error (.otherErr ("\x27" ++ key ++ "\x27"))

/-- The ON/OFF rendering of a boolean outlet state. -/
def onOffStr (b : Bool) : String := if b then "ON" else "OFF"

/-- Python str() of a list of ints, as interpolated for the bulk message. -/
def pyIntListStr (xs : List Int) : String :=
  "[" ++ String.intercalate ", " (xs.map toString) ++ "]"

/-- The per-index loop of bulk_outlet_operation; the loop body is textually
identical in server.py (lines 413-420) and http_server.py (lines 251-258):
an if/elif chain on the action with no else branch. -/
def bulkLoop (d : Device) (action : String) : List Int → M Unit
  | [] => pure ()
  | i :: rest => do
      if action = "on" then devOn d i
      else if action = "off" then devOff d i
      else if action = "cycle" then devCycle d i
      else pure ()
      bulkLoop d action rest

/-- One entry line of server.py autoping_list_entries (lines 453-461): reads
keys host/outlet/enabled/interval/retries, converting outlet with int(). -/
def renderEntryStdio (idx : Nat) (entry : PyVal) : Except PyErr String := do
  let host ← pyGet entry "host" (.str "N/A")
  let outletV ← pyGet entry "outlet" (.int (-1))
  let outletI ← pyToInt outletV
  let enabled ← pyGet entry "enabled" (.str "N/A")
  let interval ← pyGet entry "interval" (.str "N/A")
  let retries ← pyGet entry "retries" (.str "N/A")
  pure ("Entry " ++ toString idx ++ ":\n  Host: " ++ pyStr host
    ++ "\n  Outlet: " ++ toString (outletI + 1)
    ++ "\n  Enabled: " ++ pyStr enabled
    ++ "\n  Interval: " ++ pyStr interval ++ "s"
    ++ "\n  Retries: " ++ pyStr retries)

/-- The enumerate loop over entries in server.py autoping_list_entries. -/
def renderEntriesStdio : List PyVal → Nat → Except PyErr (List String)
  | [], _ => .ok []
  | e :: rest, idx => do
      let s ← renderEntryStdio idx e
      let more ← renderEntriesStdio rest (idx + 1)
      pure (s :: more)

/-- The body of the try block of server.py call_tool after the get_device
call: the if/elif dispatch on the tool name (lines 343-508).  The returned
list of strings is the list of TextContent texts. -/
def toolBody (d : Device) (name : String) (args : Args) : M (List String) :=
  if name = "outlet_on" then do
    let i ← liftE (req args.outlet_id "outlet_id")
    devOn d i
    pure ["Outlet " ++ toString (i + 1) ++ " turned ON"]
  else if name = "outlet_off" then do
    let i ← liftE (req args.outlet_id "outlet_id")
    devOff d i
    pure ["Outlet " ++ toString (i + 1) ++ " turned OFF"]
  else if name = "outlet_cycle" then do
    let i ← liftE (req args.outlet_id "outlet_id")
    devCycle d i
    pure ["Outlet " ++ toString (i + 1) ++ " power cycled"]
  else if name = "get_outlet_state" then do
    let i ← liftE (req args.outlet_id "outlet_id")
    let st ← devState d i
    pure ["Outlet " ++ toString (i + 1) ++ " is " ++ onOffStr st]
  else if name = "get_all_outlet_states" then do
    let states ← devAllStates d
    pure [String.intercalate "\n"
      (states.enum.map (fun p => "Outlet " ++ toString (p.1 + 1) ++ ": " ++ onOffStr p.2))]
  else if name = "get_outlet_info" then do
    let i ← liftE (req args.outlet_id "outlet_id")
    let nm ← devName d i
    let st ← devState d i
    let lk ← devLocked d i
    pure [json_dumps (.dict
      [("id", .int i), ("name", .str nm), ("state", .str (onOffStr st)), ("locked", .bool lk)])]
  else if name = "set_outlet_name" then do
    let i ← liftE (req args.outlet_id "outlet_id")
    let nm ← liftE (req args.name "name")
    devSetName d i nm
    pure ["Outlet " ++ toString (i + 1) ++ " renamed to \x27" ++ nm ++ "\x27"]
  else if name = "get_power_metrics" then do
    let v ← devVoltage d
    let c ← devCurrent d
    let p ← devPower d
    let e ← devEnergy d
    pure [json_dumps (.dict
      [("voltage_v", v), ("current_a", c), ("power_w", p), ("energy_kwh", e)])]
  else if name = "get_device_info" then do
    let info ← devInfo d
    pure [json_dumps info]
  else if name = "bulk_outlet_operation" then do
    let action ← liftE (req args.action "action")
    match args.outlet_ids with
    | some ids => do
        bulkLoop d action ids
        pure ["Performed \x27" ++ action ++ "\x27 on outlets: "
          ++ pyIntListStr (ids.map (· + 1))]
    | Option.none => do
        devBulk d false action
        pure ["Performed \x27" ++ action ++ "\x27 on all unlocked outlets"]
  else if name = "autoping_add_entry" then do
    let host ← liftE (req args.host "host")
    let i ← liftE (req args.outlet_id "outlet_id")
    let enabled := args.enabled.getD true
    let interval := args.interval.getD 60
    let retries := args.retries.getD 3
    let result ← devApAdd d host i enabled interval retries
    pure ["Added AutoPing entry for host " ++ host ++ " on outlet " ++ toString (i + 1)
      ++ "\n" ++ json_dumps result]
  else if name = "autoping_list_entries" then do
    let entries ← devApList d
    if !entries.isEmpty then do
      let rendered ← liftE (renderEntriesStdio entries 0)
      pure [String.intercalate "\n\n" rendered]
    else
      pure ["No AutoPing entries configured"]
  else if name = "autoping_get_entry" then do
    let id ← liftE (req args.entry_id "entry_id")
    let entry ← devApGet d id
    pure [json_dumps entry]
  else if name = "autoping_update_entry" then do
    let id ← liftE (req args.entry_id "entry_id")
    let success ← devApUpdate d id args.host args.outlet_id args.enabled
      args.interval args.retries
    pure ["AutoPing entry " ++ toString id ++ " "
      ++ (if success then "updated successfully" else "update failed")]
  else if name = "autoping_delete_entry" then do
    let id ← liftE (req args.entry_id "entry_id")
    let success ← devApDelete d id
    pure ["AutoPing entry " ++ toString id ++ " "
      ++ (if success then "deleted successfully" else "delete failed")]
  else if name = "autoping_enable_entry" then do
    let id ← liftE (req args.entry_id "entry_id")
    let success ← devApEnable d id
    pure ["AutoPing entry " ++ toString id ++ " "
      ++ (if success then "enabled successfully" else "enable failed")]
  else if name = "autoping_disable_entry" then do
    let id ← liftE (req args.entry_id "entry_id")
    let success ← devApDisable d id
    pure ["AutoPing entry " ++ toString id ++ " "
      ++ (if success then "disabled successfully" else "disable failed")]
  else
    pure ["Unknown tool: " ++ name]

/-- The except clauses shared by call_tool and the string-returning HTTP
handlers: PowerSwitchError is rendered with prefix Error:, every other
exception with prefix Unexpected error:. -/
def fmtCaughtText : PyErr → String
  | .psErr m => "Error: " ++ m
  | .valueError m => "Unexpected error: " ++ m
  | .otherErr m => "Unexpected error: " ++ m

/-- server.py call_tool: get_device then the name dispatch, all inside one
try whose except clauses return the caught error as a text payload.  Result:
(TextContent texts, client-library call trace, new cached handle). -/
def call_tool (env : Env) (cached : Option Handle) (d : Device) (name : String)
    (args : Args) : List String × List DevCall × Option Handle :=
  match get_device env cached with
  | (.error e, c2) => ([fmtCaughtText e], [], c2)
  | (.ok _, c2) =>
      match toolBody d name args [] with
      | (.ok texts, tr) => (texts, tr, c2)
      | (.error e, tr) => ([fmtCaughtText e], tr, c2)

/-! The HTTP dispatch — http_server.py (lines 59-463).  Every handler wraps
its body in the same try/except pair; runTryS embeds that wrapper for the
string-returning handlers and runTryD for the mapping-returning ones. -/

/-- The try/except wrapper of a string-returning HTTP handler: get_device,
then the body, with PowerSwitchError rendered as Error: and any other
exception as Unexpected error:. -/
def runTryS (env : Env) (cached : Option Handle) (body : M String) :
    String × List DevCall × Option Handle :=
  match get_device env cached with
  | (.error e, c2) => (fmtCaughtText e, [], c2)
  | (.ok _, c2) =>
      match body [] with
      | (.ok s, tr) => (s, tr, c2)
      | (.error e, tr) => (fmtCaughtText e, tr, c2)

/-- The except clauses of a mapping-returning HTTP handler: a dict with the
single key error. -/
def fmtCaughtDict : PyErr → PyVal
  | .psErr m => .dict [("error", .str m)]
  | .valueError m => .dict [("error", .str ("Unexpected error: " ++ m))]
  | .otherErr m => .dict [("error", .str ("Unexpected error: " ++ m))]

/-- The try/except wrapper of a mapping-returning HTTP handler. -/
def runTryD (env : Env) (cached : Option Handle) (body : M PyVal) :
    PyVal × List DevCall × Option Handle :=
  match get_device env cached with
  | (.error e, c2) => (fmtCaughtDict e, [], c2)
  | (.ok _, c2) =>
      match body [] with
      | (.ok v, tr) => (v, tr, c2)
      | (.error e, tr) => (fmtCaughtDict e, tr, c2)

/-- http_server.py outlet_on (lines 59-75). -/
def outlet_on (env : Env) (cached : Option Handle) (d : Device) (outlet_id : Int) :
    String × List DevCall × Option Handle :=
  runTryS env cached (do
    devOn d outlet_id
    pure ("Outlet " ++ toString (outlet_id + 1) ++ " turned ON"))

/-- http_server.py outlet_off (lines 78-94). -/
def outlet_off (env : Env) (cached : Option Handle) (d : Device) (outlet_id : Int) :
    String × List DevCall × Option Handle :=
  runTryS env cached (do
    devOff d outlet_id
    pure ("Outlet " ++ toString (outlet_id + 1) ++ " turned OFF"))

/-- http_server.py outlet_cycle (lines 97-113). -/
def outlet_cycle (env : Env) (cached : Option Handle) (d : Device) (outlet_id : Int) :
    String × List DevCall × Option Handle :=
  runTryS env cached (do
    devCycle d outlet_id
    pure ("Outlet " ++ toString (outlet_id + 1) ++ " power cycled"))

/-- http_server.py get_outlet_state (lines 116-133). -/
def get_outlet_state (env : Env) (cached : Option Handle) (d : Device) (outlet_id : Int) :
    String × List DevCall × Option Handle :=
  runTryS env cached (do
    let st ← devState d outlet_id
    pure ("Outlet " ++ toString (outlet_id + 1) ++ " is " ++ onOffStr st))

/-- http_server.py get_all_outlet_states (lines 136-152). -/
def get_all_outlet_states (env : Env) (cached : Option Handle) (d : Device) :
    String × List DevCall × Option Handle :=
  runTryS env cached (do
    let states ← devAllStates d
    pure (String.intercalate "\n"
      (states.enum.map (fun p => "Outlet " ++ toString (p.1 + 1) ++ ": " ++ onOffStr p.2))))

/-- http_server.py get_outlet_info (lines 155-176), a mapping-returning
handler. -/
def get_outlet_info (env : Env) (cached : Option Handle) (d : Device) (outlet_id : Int) :
    PyVal × List DevCall × Option Handle :=
  runTryD env cached (do
    let nm ← devName d outlet_id
    let st ← devState d outlet_id
    let lk ← devLocked d outlet_id
    pure (.dict [("id", .int outlet_id), ("name", .str nm),
      ("state", .str (onOffStr st)), ("locked", .bool lk)]))

/-- http_server.py set_outlet_name (lines 179-196). -/
def set_outlet_name (env : Env) (cached : Option Handle) (d : Device) (outlet_id : Int)
    (name : String) : String × List DevCall × Option Handle :=
  runTryS env cached (do
    devSetName d outlet_id name
    pure ("Outlet " ++ toString (outlet_id + 1) ++ " renamed to \x27" ++ name ++ "\x27"))

/-- http_server.py get_power_metrics (lines 199-220), a mapping-returning
handler. -/
def get_power_metrics (env : Env) (cached : Option Handle) (d : Device) :
    PyVal × List DevCall × Option Handle :=
  runTryD env cached (do
    let v ← devVoltage d
    let c ← devCurrent d
    let p ← devPower d
    let e ← devEnergy d
    pure (.dict [("voltage_v", v), ("current_a", c), ("power_w", p), ("energy_kwh", e)]))

/-- http_server.py get_device_info (lines 223-235), a mapping-returning
handler. -/
def get_device_info (env : Env) (cached : Option Handle) (d : Device) :
    PyVal × List DevCall × Option Handle :=
  runTryD env cached (devInfo d)

/-- http_server.py bulk_outlet_operation (lines 238-271). -/
def bulk_outlet_operation (env : Env) (cached : Option Handle) (d : Device)
    (action : String) (outlet_ids : Option (List Int)) :
    String × List DevCall × Option Handle :=
  runTryS env cached (do
    match outlet_ids with
    | some ids => do
        bulkLoop d action ids
        pure ("Performed \x27" ++ action ++ "\x27 on outlets: "
          ++ pyIntListStr (ids.map (· + 1)))
    | Option.none => do
        devBulk d false action
        pure ("Performed \x27" ++ action ++ "\x27 on all unlocked outlets"))

/-- http_server.py autoping_add_entry (lines 274-306); the device result is
interpolated with str(), not json.dumps. -/
def autoping_add_entry (env : Env) (cached : Option Handle) (d : Device) (host : String)
    (outlet_id : Int) (enabled : Bool) (interval : Int) (retries : Int) :
    String × List DevCall × Option Handle :=
  runTryS env cached (do
    let result ← devApAdd d host outlet_id enabled interval retries
    pure ("Added AutoPing entry for host " ++ host ++ " on outlet "
      ++ toString (outlet_id + 1) ++ "\n" ++ pyStr result))

/-- One entry line of http_server.py autoping_list_entries (lines 317-337):
reads the addresses, outlets and status structures of an entry. -/
def renderEntryHttp (idx : Nat) (entry : PyVal) : Except PyErr String := do
  let hosts ← pyGet entry "addresses" (.list [])
  let host ← if pyTruthy hosts then do
      let h ← pyIndex0 hosts
      pure (pyStr h)
    else pure "N/A"
  let outlets ← pyGet entry "outlets" (.list [])
  let outletV ← if pyTruthy outlets then pyIndex0 outlets else pure (.int (-1))
  let status ← pyGet entry "status" (.dict [])
  let statusHosts ← pyGet status "hosts" .noneV
  let hostStatus ← if pyTruthy statusHosts then do
      let hs ← pyGet status "hosts" (.list [.dict []])
      pyIndex0 hs
    else pure (.dict [])
  let successCount ← pyGet hostStatus "success_count" (.int 0)
  let failureCount ← pyGet hostStatus "failure_count" (.int 0)
  let outletP1 ← pyAdd1 outletV
  let enabled ← pyGet entry "enabled" (.bool false)
  let stateV ← pyGet hostStatus "state" .noneV
  pure ("Entry " ++ toString idx ++ ":\n  Host: " ++ host
    ++ "\n  Outlet: " ++ toString outletP1
    ++ "\n  Enabled: " ++ pyStr enabled
    ++ "\n  State: " ++ (if pyTruthy stateV then "Active" else "Inactive")
    ++ "\n  Success: " ++ pyStr successCount ++ " | Failures: " ++ pyStr failureCount)

/-- The enumerate loop over entries in http_server.py autoping_list_entries. -/
def renderEntriesHttp : List PyVal → Nat → Except PyErr (List String)
  | [], _ => .ok []
  | e :: rest, idx => do
      let s ← renderEntryHttp idx e
      let more ← renderEntriesHttp rest (idx + 1)
      pure (s :: more)

/-- http_server.py autoping_list_entries (lines 309-345). -/
def autoping_list_entries (env : Env) (cached : Option Handle) (d : Device) :
    String × List DevCall × Option Handle :=
  runTryS env cached (do
    let entries ← devApList d
    if !entries.isEmpty then do
      let rendered ← liftE (renderEntriesHttp entries 0)
      pure (String.intercalate "\n\n" rendered)
    else
      pure "No AutoPing entries configured")

/-- http_server.py autoping_get_entry (lines 348-364), a mapping-returning
handler. -/
def autoping_get_entry (env : Env) (cached : Option Handle) (d : Device) (entry_id : Int) :
    PyVal × List DevCall × Option Handle :=
  runTryD env cached (devApGet d entry_id)

/-- http_server.py autoping_update_entry (lines 367-403). -/
def autoping_update_entry (env : Env) (cached : Option Handle) (d : Device) (entry_id : Int)
    (host : Option String) (outlet_id : Option Int) (enabled : Option Bool)
    (interval : Option Int) (retries : Option Int) :
    String × List DevCall × Option Handle :=
  runTryS env cached (do
    let success ← devApUpdate d entry_id host outlet_id enabled interval retries
    pure ("AutoPing entry " ++ toString entry_id ++ " "
      ++ (if success then "updated successfully" else "update failed")))

/-- http_server.py autoping_delete_entry (lines 406-423). -/
def autoping_delete_entry (env : Env) (cached : Option Handle) (d : Device) (entry_id : Int) :
    String × List DevCall × Option Handle :=
  runTryS env cached (do
    let success ← devApDelete d entry_id
    pure ("AutoPing entry " ++ toString entry_id ++ " "
      ++ (if success then "deleted successfully" else "delete failed")))

/-- http_server.py autoping_enable_entry (lines 426-443). -/
def autoping_enable_entry (env : Env) (cached : Option Handle) (d : Device) (entry_id : Int) :
    String × List DevCall × Option Handle :=
  runTryS env cached (do
    let success ← devApEnable d entry_id
    pure ("AutoPing entry " ++ toString entry_id ++ " "
      ++ (if success then "enabled successfully" else "enable failed")))

/-- http_server.py autoping_disable_entry (lines 446-463). -/
def autoping_disable_entry (env : Env) (cached : Option Handle) (d : Device) (entry_id : Int) :
    String × List DevCall × Option Handle :=
  runTryS env cached (do
    let success ← devApDisable d entry_id
    pure ("AutoPing entry " ++ toString entry_id ++ " "
      ++ (if success then "disabled successfully" else "disable failed")))

/-! The interactive setup script — scripts/setup_ecowitt_autoping.py. -/

/-- One client-library call made by the setup script. -/
inductive SCall where
  | testConnection
  | listEntries
  | addEntry (host : String) (outlet : Int) (enabled : Bool) (interval : Int) (retries : Int)
deriving DecidableEq

/-- The client library as seen by the setup script. -/
structure SDevice where
  testConnectionRes : Except PyErr Bool
  listEntriesRes : Except PyErr (List PyVal)
  addEntryRes : String → Int → Bool → Int → Int → Except PyErr PyVal

/-- How the script process ends: sys.exit(code), falling off the end of main
(exit code 0), or an uncaught exception (crash). -/
inductive Outcome where
  | exited (code : Nat)
  | crashed (e : PyErr)
deriving DecidableEq

/-- input(): consume the next line of operator input; EOFError when none. -/
def takeInput : List String → Except PyErr (String × List String)
  | [] => .error (.otherErr "EOF when reading a line")
  | s :: rest => .ok (s, rest)

/-- Python int(s) on an input string. -/
def pyParseInt (s : String) : Except PyErr Int :=
  match strToInt (strTrim s) with
  | some i => .ok i
  | Option.none =>
      .error (.valueError ("invalid literal for int() with base 10: \x27" ++ s ++ "\x27"))

/-- Python int(input) with a default on blank input, as the setup script does
for the interval and retries prompts (the input is stripped first). -/
def readIntDefault (s : String) (dflt : Int) : Except PyErr Int :=
  if strTrim s = "" then .ok dflt else pyParseInt (strTrim s)

/-- The credential and parameter prompts of the setup script (lines 17-37):
host and password are prompted only when their environment values are falsy;
then the Ecowitt IP, the outlet number, and the optional interval and retries
(defaults 60 and 3 on blank input) are read.  Returns the collected values and
the remaining operator input. -/
def promptsPhase (env : Env) (inputs : List String) :
    Except PyErr (String × String × String × String × Int × Int × Int × List String) :=
  let hostEnv := env "POWER_SWITCH_HOST"
  let username := (env "POWER_SWITCH_USERNAME").getD "admin"
  let passwordEnv := env "POWER_SWITCH_PASSWORD"
  match (if falsyEnv hostEnv then takeInput inputs else .ok (hostEnv.getD "", inputs)) with
  | .error e => .error e
  | .ok (host, ins1) =>
    match (if falsyEnv passwordEnv then takeInput ins1 else .ok (passwordEnv.getD "", ins1)) with
    | .error e => .error e
    | .ok (password, ins2) =>
      match takeInput ins2 with
      | .error e => .error e
      | .ok (ecowittIp, ins3) =>
        match takeInput ins3 with
        | .error e => .error e
        | .ok (outletS, ins4) =>
          match pyParseInt outletS with
          | .error e => .error e
          | .ok outletId =>
            match takeInput ins4 with
            | .error e => .error e
            | .ok (intervalS, ins5) =>
              match readIntDefault intervalS 60 with
              | .error e => .error e
              | .ok interval =>
                match takeInput ins5 with
                | .error e => .error e
                | .ok (retriesS, ins6) =>
                  match readIntDefault retriesS 3 with
                  | .error e => .error e
                  | .ok retries =>
                    .ok (host, username, password, ecowittIp, outletId, interval, retries, ins6)

/-- Whether every listed entry is a dict, so that the listing loop of the
script (entry.get on each entry, lines 58-64) cannot raise. -/
def allDicts : List PyVal → Bool
  | [] => true
  | .dict _ :: rest => allDicts rest
  | _ :: _ => false

/-- scripts/setup_ecowitt_autoping.py main: prompts, connectivity check
(sys.exit(1) on failure), listing of current entries, the confirmation prompt
(sys.exit(0) unless the lowered answer is y), and the add_entry call.  The
result is the process outcome and the trace of client-library calls. -/
def setupMain (env : Env) (d : SDevice) (inputs : List String) : Outcome × List SCall :=
  match promptsPhase env inputs with
  | .error e => (.crashed e, [])
  | .ok (_host, _username, _password, ecowittIp, outletId, interval, retries, rest) =>
      match d.testConnectionRes with
      | .error e => (.crashed e, [.testConnection])
      | .ok false => (.exited 1, [.testConnection])
      | .ok true =>
          match d.listEntriesRes with
          | .error e => (.crashed e, [.testConnection, .listEntries])
          | .ok entries =>
              if allDicts entries then
                match takeInput rest with
                | .error e => (.crashed e, [.testConnection, .listEntries])
                | .ok (confirm, _rest2) =>
                    if strLower confirm != "y" then
                      (.exited 0, [.testConnection, .listEntries])
                    else
                      match d.addEntryRes ecowittIp outletId true interval retries with
                      | .error e => (.crashed e, [.testConnection, .listEntries,
                          .addEntry ecowittIp outletId true interval retries])
                      | .ok _ => (.exited 0, [.testConnection, .listEntries,
                          .addEntry ecowittIp outletId true interval retries])
              else
                (.crashed (.otherErr "object has no attribute \x27get\x27"),
                  [.testConnection, .listEntries])

/-! Concrete fixtures used by witnesses and counterexamples. -/

/-- An environment with valid host and password and nothing else. -/
def env0 : Env := fun k =>
  if k = "POWER_SWITCH_HOST" then some "192.168.1.50"
  else if k = "POWER_SWITCH_PASSWORD" then some "pw" else Option.none

/-- An environment missing the host variable. -/
def envNoHost : Env := fun k =>
  if k = "POWER_SWITCH_PASSWORD" then some "pw" else Option.none

/-- A device on which every client-library call raises
PowerSwitchError("boom"). -/
def failDev : Device where
  onRes := fun _ => .error (.psErr "boom")
  offRes := fun _ => .error (.psErr "boom")
  cycleRes := fun _ => .error (.psErr "boom")
  stateRes := fun _ => .error (.psErr "boom")
  allStatesRes := .error (.psErr "boom")
  nameRes := fun _ => .error (.psErr "boom")
  lockedRes := fun _ => .error (.psErr "boom")
  setNameRes := fun _ _ => .error (.psErr "boom")
  voltageRes := .error (.psErr "boom")
  currentRes := .error (.psErr "boom")
  powerRes := .error (.psErr "boom")
  energyRes := .error (.psErr "boom")
  infoRes := .error (.psErr "boom")
  bulkRes := fun _ _ => .error (.psErr "boom")
  apAddRes := fun _ _ _ _ _ => .error (.psErr "boom")
  apListRes := .error (.psErr "boom")
  apGetRes := fun _ => .error (.psErr "boom")
  apUpdateRes := fun _ _ _ _ _ _ => .error (.psErr "boom")
  apDeleteRes := fun _ => .error (.psErr "boom")
  apEnableRes := fun _ => .error (.psErr "boom")
  apDisableRes := fun _ => .error (.psErr "boom")

/-- A device on which every call succeeds with simple values. -/
def okDev : Device where
  onRes := fun _ => .ok ()
  offRes := fun _ => .ok ()
  cycleRes := fun _ => .ok ()
  stateRes := fun _ => .ok true
  allStatesRes := .ok [true, false]
  nameRes := fun _ => .ok "Lamp"
  lockedRes := fun _ => .ok false
  setNameRes := fun _ _ => .ok ()
  voltageRes := .ok (.int 120)
  currentRes := .ok (.int 2)
  powerRes := .ok (.int 240)
  energyRes := .ok (.int 10)
  infoRes := .ok (.dict [("serial", .str "SN1")])
  bulkRes := fun _ _ => .ok ()
  apAddRes := fun _ _ _ _ _ => .ok (.dict [("id", .int 0)])
  apListRes := .ok []
  apGetRes := fun _ => .ok (.dict [("id", .int 0)])
  apUpdateRes := fun _ _ _ _ _ _ => .ok true
  apDeleteRes := fun _ => .ok true
  apEnableRes := fun _ => .ok true
  apDisableRes := fun _ => .ok true

/-- A schema-complete argument mapping used for instance checks. -/
def sampleArgs : Args where
  outlet_id := some 0
  name := some "Lamp"
  action := some "on"
  outlet_ids := some [0]
  host := some "10.0.0.9"
  enabled := some true
  interval := some 30
  retries := some 2
  entry_id := some 0

/-- The seventeen tool names of the catalog (list_tools, server.py 50-334). -/
def catalogNames : List String :=
  ["outlet_on", "outlet_off", "outlet_cycle", "get_outlet_state",
   "get_all_outlet_states", "get_outlet_info", "set_outlet_name",
   "get_power_metrics", "get_device_info", "bulk_outlet_operation",
   "autoping_add_entry", "autoping_list_entries", "autoping_get_entry",
   "autoping_update_entry", "autoping_delete_entry", "autoping_enable_entry",
   "autoping_disable_entry"]

/-- An AutoPing entry as the old library format used by server.py renders it. -/
def entrySample : PyVal :=
  .dict [("host", .str "example.com"), ("outlet", .int 2), ("enabled", .bool true),
    ("interval", .int 60), ("retries", .int 3)]

/-- A device whose AutoPing listing returns exactly entrySample. -/
def devListOne : Device := { okDev with apListRes := .ok [entrySample] }

/-! Helper lemmas about the device accessor. -/

theorem get_device_cached (env : Env) (c : Handle) :
    get_device env (some c) = (.ok c, some c) := rfl

theorem get_device_first (env : Env) (h : Handle)
    (hk : (get_device env Option.none).1 = .ok h) :
    h = mkHandle env ∧ get_device env Option.none = (.ok h, some h) := by
  by_cases hc : (falsyEnv (env "POWER_SWITCH_HOST")
      || falsyEnv (env "POWER_SWITCH_PASSWORD")) = true
  · simp [get_device, hc] at hk
  · simp [get_device, hc] at hk ⊢
    exact ⟨hk.symm, hk⟩

theorem runCalls_cached (envs : List Env) (h : Handle) :
    runCalls envs (some h) = (envs.map (fun _ => Except.ok h), some h, 0) := by
  induction envs with
  | nil => rfl
  | cons e rest ih => simp [runCalls, get_device_cached, ih]

/-- C2: within one process, once the first get_device call succeeds the handle
is constructed exactly once, from the environment values seen by that call, and every
subsequent call returns the cached handle unconditionally — even under a
different (or invalid) later environment, with no re-validation.  runCalls
threads the module-level _device cache through a sequence of calls and counts
constructions. -/
theorem C2_get_device_singleton :
    (∀ (env : Env) (c : Handle), get_device env (some c) = (.ok c, some c))
    ∧ (∀ (env : Env) (h : Handle), (get_device env Option.none).1 = .ok h →
        h = mkHandle env)
    ∧ (∀ (env : Env) (envs : List Env) (h : Handle),
        (get_device env Option.none).1 = .ok h →
        runCalls (env :: envs) Option.none =
          (Except.ok h :: envs.map (fun _ => Except.ok h), some h, 1)) := by
  refine ⟨fun env c => rfl, fun env h hk => (get_device_first env h hk).1, ?_⟩
  intro env envs h hk
  have h2 := (get_device_first env h hk).2
  simp [runCalls, h2, runCalls_cached]

/-- C2 witness: two calls under env0 both return the handle built from env0
and exactly one construction happens. -/
theorem C2_get_device_singleton_witness :
    runCalls [env0, env0] Option.none =
      ([Except.ok (mkHandle env0), Except.ok (mkHandle env0)], some (mkHandle env0), 1) :=
  C2_get_device_singleton.2.2 env0 [env0] (mkHandle env0) rfl

/-- C3: when the host or password environment value is absent or empty and the
cache is unset, get_device raises ValueError with the configuration message,
and the cache stays unset — no handle is constructed, hence no network call is
attempted. -/
theorem C3_get_device_missing_config :
    ∀ env : Env,
      (falsyEnv (env "POWER_SWITCH_HOST") || falsyEnv (env "POWER_SWITCH_PASSWORD")) = true →
      get_device env Option.none = (.error (.valueError configErrMsg), Option.none) := by
  intro env hc
  simp [get_device, hc]

/-- C3 witness: an environment without POWER_SWITCH_HOST. -/
theorem C3_get_device_missing_config_witness :
    get_device envNoHost Option.none = (.error (.valueError configErrMsg), Option.none) :=
  C3_get_device_missing_config envNoHost (by decide)

/-! Claims C1 and C10: the error-handling boundary of every operation. -/

/-- s begins with the text p. -/
def strStarts (p s : String) : Prop := ∃ t, s = p ++ t

theorem strStarts_space (p m : String) : strStarts p (p ++ " " ++ m) := by
  refine ⟨" " ++ m, ?_⟩
  rw [← String.append_assoc]

theorem not_strStarts_error (m : String) :
    ¬ strStarts "Error:" ("Unexpected error: " ++ m) := by
  rintro ⟨t, h⟩
  have hL : ("Unexpected error: " ++ m).data.take 1 = ['U'] := by
    rw [String.data_append]; rfl
  rw [h, String.data_append] at hL
  exact absurd (show (['E'] : List Char) = ['U'] from hL) (by decide)

/-- C1: for every operation of the catalog, a device-layer error
(PowerSwitchError) raised during execution — and likewise any other
exception — is converted to a returned error payload: text prefixed
Error: / Unexpected error: for string-returning operations, a mapping with an
error key for the mapping-returning HTTP operations.  Because call_tool,
runTryS and runTryD are total functions into result payloads, no exception
ever propagates out of a handler.  The last two conjuncts instantiate the
catch behaviour for every catalog name of the standard-I/O dispatch and every
HTTP handler on a device whose every call raises PowerSwitchError("boom"). -/
theorem C1_error_payload :
    (∀ (env : Env) (cached : Option Handle) (d : Device) (name : String) (args : Args)
        (e : PyErr) (tr : List DevCall) (h : Handle) (c2 : Option Handle),
        get_device env cached = (.ok h, c2) →
        toolBody d name args [] = (.error e, tr) →
        call_tool env cached d name args = ([fmtCaughtText e], tr, c2))
    ∧ (∀ (env : Env) (cached : Option Handle) (body : M String)
        (e : PyErr) (tr : List DevCall) (h : Handle) (c2 : Option Handle),
        get_device env cached = (.ok h, c2) →
        body [] = (.error e, tr) →
        runTryS env cached body = (fmtCaughtText e, tr, c2))
    ∧ (∀ (env : Env) (cached : Option Handle) (body : M PyVal)
        (e : PyErr) (tr : List DevCall) (h : Handle) (c2 : Option Handle),
        get_device env cached = (.ok h, c2) →
        body [] = (.error e, tr) →
        runTryD env cached body = (fmtCaughtDict e, tr, c2))
    ∧ (∀ m, fmtCaughtText (.psErr m) = "Error: " ++ m
        ∧ fmtCaughtText (.valueError m) = "Unexpected error: " ++ m
        ∧ fmtCaughtText (.otherErr m) = "Unexpected error: " ++ m
        ∧ fmtCaughtDict (.psErr m) = .dict [("error", .str m)]
        ∧ fmtCaughtDict (.valueError m) = .dict [("error", .str ("Unexpected error: " ++ m))]
        ∧ fmtCaughtDict (.otherErr m) = .dict [("error", .str ("Unexpected error: " ++ m))])
    ∧ (∀ name ∈ catalogNames,
        (call_tool env0 Option.none failDev name sampleArgs).1 = ["Error: boom"])
    ∧ ((outlet_on env0 Option.none failDev 0).1 = "Error: boom"
        ∧ (outlet_off env0 Option.none failDev 0).1 = "Error: boom"
        ∧ (outlet_cycle env0 Option.none failDev 0).1 = "Error: boom"
        ∧ (get_outlet_state env0 Option.none failDev 0).1 = "Error: boom"
        ∧ (get_all_outlet_states env0 Option.none failDev).1 = "Error: boom"
        ∧ (get_outlet_info env0 Option.none failDev 0).1 = .dict [("error", .str "boom")]
        ∧ (set_outlet_name env0 Option.none failDev 0 "Lamp").1 = "Error: boom"
        ∧ (get_power_metrics env0 Option.none failDev).1 = .dict [("error", .str "boom")]
        ∧ (get_device_info env0 Option.none failDev).1 = .dict [("error", .str "boom")]
        ∧ (bulk_outlet_operation env0 Option.none failDev "on" (some [0])).1 = "Error: boom"
        ∧ (autoping_add_entry env0 Option.none failDev "10.0.0.9" 0 true 30 2).1 = "Error: boom"
        ∧ (autoping_list_entries env0 Option.none failDev).1 = "Error: boom"
        ∧ (autoping_get_entry env0 Option.none failDev 0).1 = .dict [("error", .str "boom")]
        ∧ (autoping_update_entry env0 Option.none failDev 0 Option.none Option.none
            Option.none Option.none Option.none).1 = "Error: boom"
        ∧ (autoping_delete_entry env0 Option.none failDev 0).1 = "Error: boom"
        ∧ (autoping_enable_entry env0 Option.none failDev 0).1 = "Error: boom"
        ∧ (autoping_disable_entry env0 Option.none failDev 0).1 = "Error: boom") := by
  refine ⟨?_, ?_, ?_, ?_, ?_, ?_⟩
  · intro env cached d name args e tr h c2 hg hb
    simp [call_tool, hg, hb]
  · intro env cached body e tr h c2 hg hb
    simp [runTryS, hg, hb]
  · intro env cached body e tr h c2 hg hb
    simp [runTryD, hg, hb]
  · intro m
    exact ⟨rfl, rfl, rfl, rfl, rfl, rfl⟩
  · decide
  · exact ⟨rfl, rfl, rfl, rfl, rfl, rfl, rfl, rfl, rfl, rfl, rfl, rfl, rfl, rfl, rfl, rfl, rfl⟩

/-- C1 witness: the catch conjunct applied to the failing device at
outlet_on. -/
theorem C1_error_payload_witness :
    call_tool env0 Option.none failDev "outlet_on" sampleArgs
      = (["Error: boom"], [DevCall.on 0], some (mkHandle env0)) :=
  C1_error_payload.1 env0 Option.none failDev "outlet_on" sampleArgs
    (.psErr "boom") [DevCall.on 0] (mkHandle env0) (some (mkHandle env0)) rfl rfl

/-- C10: the two caught error classes carry disjoint prefixes.  A
PowerSwitchError with message m becomes exactly Error: m, any other exception
becomes exactly Unexpected error: m, in both the standard-I/O and the HTTP
catch clauses; and no string of the form Unexpected error: m begins with
Error:, so the caller can tell the two classes apart from the text alone. -/
theorem C10_disjoint_error_prefixes :
    (∀ (env : Env) (cached : Option Handle) (d : Device) (name : String) (args : Args)
        (m : String) (tr : List DevCall) (h : Handle) (c2 : Option Handle),
        get_device env cached = (.ok h, c2) →
        toolBody d name args [] = (.error (.psErr m), tr) →
        (call_tool env cached d name args).1 = ["Error: " ++ m])
    ∧ (∀ (env : Env) (cached : Option Handle) (d : Device) (name : String) (args : Args)
        (m : String) (tr : List DevCall) (h : Handle) (c2 : Option Handle),
        get_device env cached = (.ok h, c2) →
        (toolBody d name args [] = (.error (.valueError m), tr) ∨
         toolBody d name args [] = (.error (.otherErr m), tr)) →
        (call_tool env cached d name args).1 = ["Unexpected error: " ++ m])
    ∧ (∀ (env : Env) (cached : Option Handle) (body : M String)
        (m : String) (tr : List DevCall) (h : Handle) (c2 : Option Handle),
        get_device env cached = (.ok h, c2) →
        body [] = (.error (.psErr m), tr) →
        (runTryS env cached body).1 = "Error: " ++ m)
    ∧ (∀ (env : Env) (cached : Option Handle) (body : M String)
        (m : String) (tr : List DevCall) (h : Handle) (c2 : Option Handle),
        get_device env cached = (.ok h, c2) →
        (body [] = (.error (.valueError m), tr) ∨ body [] = (.error (.otherErr m), tr)) →
        (runTryS env cached body).1 = "Unexpected error: " ++ m)
    ∧ (∀ m, strStarts "Error:" ("Error: " ++ m))
    ∧ (∀ m, strStarts "Unexpected error:" ("Unexpected error: " ++ m))
    ∧ (∀ m, ¬ strStarts "Error:" ("Unexpected error: " ++ m)) := by
  refine ⟨?_, ?_, ?_, ?_, ?_, ?_, not_strStarts_error⟩
  · intro env cached d name args m tr h c2 hg hb
    simp [call_tool, hg, hb, fmtCaughtText]
  · intro env cached d name args m tr h c2 hg hb
    rcases hb with hb | hb <;> simp [call_tool, hg, hb, fmtCaughtText]
  · intro env cached body m tr h c2 hg hb
    simp [runTryS, hg, hb, fmtCaughtText]
  · intro env cached body m tr h c2 hg hb
    rcases hb with hb | hb <;> simp [runTryS, hg, hb, fmtCaughtText]
  · intro m
    exact strStarts_space "Error:" m
  · intro m
    exact strStarts_space "Unexpected error:" m

/-- C10 witness: the PowerSwitchError branch at a concrete failing call, plus
the disjointness instance at the same message. -/
theorem C10_disjoint_error_prefixes_witness :
    (call_tool env0 Option.none failDev "outlet_off" sampleArgs).1 = ["Error: " ++ "boom"]
      ∧ ¬ strStarts "Error:" ("Unexpected error: " ++ "boom") :=
  ⟨C10_disjoint_error_prefixes.1 env0 Option.none failDev "outlet_off" sampleArgs
      "boom" [DevCall.off 0] (mkHandle env0) (some (mkHandle env0)) rfl rfl,
   C10_disjoint_error_prefixes.2.2.2.2.2.2 "boom"⟩

/-! Claims C6, C7, C9: bulk_outlet_operation. -/

/-- The oracle outcome of the one outlet call selected by the bulk action. -/
def actionRes (d : Device) (a : String) (i : Int) : Except PyErr Unit :=
  if a = "on" then d.onRes i else if a = "off" then d.offRes i else d.cycleRes i

/-- The recorded call selected by the bulk action. -/
def actionDevCall (a : String) (i : Int) : DevCall :=
  if a = "on" then .on i else if a = "off" then .off i else .cycle i

theorem M.pure_apply (a : α) (tr : List DevCall) :
    (pure a : M α) tr = (.ok a, tr) := rfl

theorem M.bind_apply (x : M α) (f : α → M β) (tr : List DevCall) :
    (x >>= f) tr =
      match x tr with
      | (.ok a, tr2) => f a tr2
      | (.error e, tr2) => (.error e, tr2) := rfl

theorem bulkLoop_ok (d : Device) (a : String)
    (ha : a = "on" ∨ a = "off" ∨ a = "cycle") :
    ∀ (ids : List Int) (tr : List DevCall),
      (∀ i ∈ ids, actionRes d a i = .ok ()) →
      bulkLoop d a ids tr = (.ok (), tr ++ ids.map (actionDevCall a)) := by
  intro ids
  induction ids with
  | nil =>
      intro tr _
      simp only [List.map_nil, List.append_nil]
      rfl
  | cons i rest ih =>
      intro tr hok
      have hi : actionRes d a i = .ok () := hok i (by simp)
      have hrest : ∀ j ∈ rest, actionRes d a j = .ok () :=
        fun j hj => hok j (by simp [hj])
      rcases ha with rfl | rfl | rfl
      · simp [actionRes] at hi
        simp [bulkLoop, M.bind_apply, devOn, emit, hi,
          ih (tr ++ [DevCall.on i]) hrest, actionDevCall]
      · simp [actionRes] at hi
        simp [bulkLoop, M.bind_apply, devOff, emit, hi,
          ih (tr ++ [DevCall.off i]) hrest, actionDevCall]
      · simp [actionRes] at hi
        simp [bulkLoop, M.bind_apply, devCycle, emit, hi,
          ih (tr ++ [DevCall.cycle i]) hrest, actionDevCall]

theorem bulkLoop_noop (d : Device) (a : String)
    (ha : ¬(a = "on" ∨ a = "off" ∨ a = "cycle")) :
    ∀ (ids : List Int) (tr : List DevCall), bulkLoop d a ids tr = (.ok (), tr) := by
  push_neg at ha
  intro ids
  induction ids with
  | nil => intro tr; rfl
  | cons i rest ih =>
      intro tr
      simp only [bulkLoop, M.bind_apply, ha.1, ha.2.1, ha.2.2, if_false]
      exact ih tr

/-- C6: with an explicit non-empty outlet list and action on (resp. off,
cycle), bulk_outlet_operation performs the selected outlet call exactly once
per listed index, in list order (the trace is exactly the listed calls), and
the returned message enumerates the listed indices shifted to 1-based — in
both the standard-I/O and the HTTP transport.  The success of each listed call
is assumed, as a failure aborts the loop (spec §4.4: no transactional
guarantee). -/
theorem C6_bulk_explicit_list :
    ∀ (a : String), (a = "on" ∨ a = "off" ∨ a = "cycle") →
    ∀ (env : Env) (cached : Option Handle) (d : Device) (ids : List Int) (args : Args)
      (h : Handle) (c2 : Option Handle),
      get_device env cached = (.ok h, c2) →
      args.action = some a → args.outlet_ids = some ids → ids ≠ [] →
      (∀ i ∈ ids, actionRes d a i = .ok ()) →
      call_tool env cached d "bulk_outlet_operation" args =
        (["Performed \x27" ++ a ++ "\x27 on outlets: " ++ pyIntListStr (ids.map (· + 1))],
          ids.map (actionDevCall a), c2)
      ∧ bulk_outlet_operation env cached d a (some ids) =
        ("Performed \x27" ++ a ++ "\x27 on outlets: " ++ pyIntListStr (ids.map (· + 1)),
          ids.map (actionDevCall a), c2) := by
  intro a ha env cached d ids args h c2 hg hact hids _hne hok
  have hb := bulkLoop_ok d a ha ids [] hok
  constructor
  · simp [call_tool, hg, toolBody, hact, hids, liftE, req,
      M.bind_apply, M.pure_apply, hb] <;> rfl
  · simp [bulk_outlet_operation, runTryS, hg, M.bind_apply, M.pure_apply, hb] <;> rfl

/-- Arguments selecting outlets 0, 2 and 4 for a bulk operation. -/
def bulkArgs : Args := { sampleArgs with outlet_ids := some [0, 2, 4] }

/-- C6 witness: action on over outlets [0,2,4] — three on-calls in order and
the 1-based message [1, 3, 5], in both transports. -/
theorem C6_bulk_explicit_list_witness :
    call_tool env0 Option.none okDev "bulk_outlet_operation" bulkArgs
      = (["Performed \x27on\x27 on outlets: [1, 3, 5]"],
         [DevCall.on 0, DevCall.on 2, DevCall.on 4], some (mkHandle env0))
    ∧ bulk_outlet_operation env0 Option.none okDev "on" (some [0, 2, 4])
      = ("Performed \x27on\x27 on outlets: [1, 3, 5]",
         [DevCall.on 0, DevCall.on 2, DevCall.on 4], some (mkHandle env0)) :=
  C6_bulk_explicit_list "on" (Or.inl rfl) env0 Option.none okDev [0, 2, 4] bulkArgs
    (mkHandle env0) (some (mkHandle env0)) rfl rfl rfl (by decide)
    (by intro i hi; simp at hi; rcases hi with rfl | rfl | rfl <;> rfl)

/-- C7: with the outlet list omitted, bulk_outlet_operation makes exactly one
call, the all-unlocked bulk call of the client library, with no per-index
iteration — the trace is [bulkOp false action] whatever the outcome of the call —
and on success returns the all-unlocked message, in both transports. -/
theorem C7_bulk_all_unlocked :
    ∀ (env : Env) (cached : Option Handle) (d : Device) (a : String) (args : Args)
      (h : Handle) (c2 : Option Handle),
      get_device env cached = (.ok h, c2) →
      args.action = some a → args.outlet_ids = Option.none →
      ((call_tool env cached d "bulk_outlet_operation" args).2.1 = [DevCall.bulkOp false a]
        ∧ (bulk_outlet_operation env cached d a Option.none).2.1 = [DevCall.bulkOp false a])
      ∧ (d.bulkRes false a = .ok () →
          call_tool env cached d "bulk_outlet_operation" args =
            (["Performed \x27" ++ a ++ "\x27 on all unlocked outlets"],
              [DevCall.bulkOp false a], c2)
          ∧ bulk_outlet_operation env cached d a Option.none =
            ("Performed \x27" ++ a ++ "\x27 on all unlocked outlets",
              [DevCall.bulkOp false a], c2)) := by
  intro env cached d a args h c2 hg hact hids
  refine ⟨⟨?_, ?_⟩, ?_⟩
  · rcases hr : d.bulkRes false a with e | u <;>
      simp [call_tool, hg, toolBody, hact, hids, liftE, req,
        M.bind_apply, M.pure_apply, devBulk, emit, hr] <;> rfl
  · rcases hr : d.bulkRes false a with e | u <;>
      simp [bulk_outlet_operation, runTryS, hg, M.bind_apply, M.pure_apply,
        devBulk, emit, hr] <;> rfl
  · intro hr
    constructor
    · simp [call_tool, hg, toolBody, hact, hids, liftE, req,
        M.bind_apply, M.pure_apply, devBulk, emit, hr] <;> rfl
    · simp [bulk_outlet_operation, runTryS, hg, M.bind_apply, M.pure_apply,
        devBulk, emit, hr] <;> rfl

/-- Arguments with the outlet list omitted. -/
def bulkAllArgs : Args := { sampleArgs with action := some "off", outlet_ids := Option.none }

/-- C7 witness: action off with the list omitted — one bulk call and the
all-unlocked message, in both transports. -/
theorem C7_bulk_all_unlocked_witness :
    call_tool env0 Option.none okDev "bulk_outlet_operation" bulkAllArgs
      = (["Performed \x27off\x27 on all unlocked outlets"],
         [DevCall.bulkOp false "off"], some (mkHandle env0))
    ∧ bulk_outlet_operation env0 Option.none okDev "off" Option.none
      = ("Performed \x27off\x27 on all unlocked outlets",
         [DevCall.bulkOp false "off"], some (mkHandle env0)) :=
  (C7_bulk_all_unlocked env0 Option.none okDev "off" bulkAllArgs
    (mkHandle env0) (some (mkHandle env0)) rfl rfl rfl).2 rfl

/-- C9: for an action outside on/off/cycle with an explicit outlet list, the
per-index branch matches nothing — no outlet call is made, the trace is
empty — yet the handler still returns the success-form message naming the
action, in both transports. -/
theorem C9_unknown_action_success_message :
    ∀ (env : Env) (cached : Option Handle) (d : Device) (a : String) (ids : List Int)
      (args : Args) (h : Handle) (c2 : Option Handle),
      get_device env cached = (.ok h, c2) →
      args.action = some a → args.outlet_ids = some ids →
      ¬(a = "on" ∨ a = "off" ∨ a = "cycle") →
      call_tool env cached d "bulk_outlet_operation" args =
        (["Performed \x27" ++ a ++ "\x27 on outlets: " ++ pyIntListStr (ids.map (· + 1))],
          [], c2)
      ∧ bulk_outlet_operation env cached d a (some ids) =
        ("Performed \x27" ++ a ++ "\x27 on outlets: " ++ pyIntListStr (ids.map (· + 1)),
          [], c2) := by
  intro env cached d a ids args h c2 hg hact hids ha
  have hb := bulkLoop_noop d a ha ids []
  constructor
  · simp [call_tool, hg, toolBody, hact, hids, liftE, req,
      M.bind_apply, M.pure_apply, hb] <;> rfl
  · simp [bulk_outlet_operation, runTryS, hg, M.bind_apply, M.pure_apply, hb] <;> rfl

/-- Arguments with the unrecognized action reboot. -/
def bogusArgs : Args := { sampleArgs with action := some "reboot", outlet_ids := some [0, 1] }

/-- C9 witness: action reboot over [0,1] — empty trace, success-form message,
in both transports. -/
theorem C9_unknown_action_success_message_witness :
    call_tool env0 Option.none failDev "bulk_outlet_operation" bogusArgs
      = (["Performed \x27reboot\x27 on outlets: [1, 2]"], [], some (mkHandle env0))
    ∧ bulk_outlet_operation env0 Option.none failDev "reboot" (some [0, 1])
      = ("Performed \x27reboot\x27 on outlets: [1, 2]", [], some (mkHandle env0)) :=
  C9_unknown_action_success_message env0 Option.none failDev "reboot" [0, 1] bogusArgs
    (mkHandle env0) (some (mkHandle env0)) rfl rfl rfl (by decide)

/-! Claim C4: where the missing-credential failure surfaces. -/

/-- C4 counterexample: with POWER_SWITCH_HOST unset, the outlet_on tool
invocation does not present a raised fault — the ValueError of get_device is
caught by the generic except clause of call_tool and comes back as a returned
"Unexpected error:" payload.  The missing-credential failure therefore does
surface as a returned error result of a tool invocation, refuting the claim
that it never does. -/
theorem C4_counterexample :
    call_tool envNoHost Option.none okDev "outlet_on" sampleArgs
      = (["Unexpected error: " ++ configErrMsg], [], Option.none) := by decide

/-- C4 amended: get_device does raise ValueError on a missing credential, but
the accessor runs lazily inside the try block of each handler, not before serving;
on every tool invocation of either transport the failure is caught and
surfaces to the caller as a returned "Unexpected error:" payload (never as a
raised fault), and the cache stays unset. -/
theorem C4_amended_missing_credential_payload :
    ∀ env : Env,
      (falsyEnv (env "POWER_SWITCH_HOST") || falsyEnv (env "POWER_SWITCH_PASSWORD")) = true →
      (get_device env Option.none).1 = .error (.valueError configErrMsg)
      ∧ (∀ (d : Device) (name : String) (args : Args),
          call_tool env Option.none d name args
            = (["Unexpected error: " ++ configErrMsg], [], Option.none))
      ∧ (∀ (d : Device) (i : Int),
          outlet_on env Option.none d i
            = ("Unexpected error: " ++ configErrMsg, [], Option.none)) := by
  intro env hc
  have hg : get_device env Option.none = (.error (.valueError configErrMsg), Option.none) := by
    simp [get_device, hc]
  refine ⟨by rw [hg], fun d name args => ?_, fun d i => ?_⟩
  · simp [call_tool, hg, fmtCaughtText]
  · simp [outlet_on, runTryS, hg, fmtCaughtText]

/-- C4 amended witness: the HTTP outlet_on handler at the host-less
environment. -/
theorem C4_amended_missing_credential_payload_witness :
    outlet_on envNoHost Option.none okDev 3
      = ("Unexpected error: " ++ configErrMsg, [], Option.none) :=
  (C4_amended_missing_credential_payload envNoHost (by decide)).2.2 okDev 3

/-! Claim C5: equivalence of the two transports. -/

/-- C5 counterexample: the two transports do not render the same entry list to
the same text in autoping_list_entries.  On a device returning the single
entry entrySample, server.py (reading host/outlet/interval/retries) and
http_server.py (reading addresses/outlets/status) produce different text. -/
theorem C5_counterexample :
    (call_tool env0 Option.none devListOne "autoping_list_entries" sampleArgs).1
      = ["Entry 0:\n  Host: example.com\n  Outlet: 3\n  Enabled: True\n  Interval: 60s\n  Retries: 3"]
    ∧ (autoping_list_entries env0 Option.none devListOne).1
      = "Entry 0:\n  Host: N/A\n  Outlet: 0\n  Enabled: True\n  State: Inactive\n  Success: 0 | Failures: 0"
    ∧ (call_tool env0 Option.none devListOne "autoping_list_entries" sampleArgs).1
      ≠ [(autoping_list_entries env0 Option.none devListOne).1] :=
  ⟨by decide, by decide, by decide⟩

/-- Wrap a single HTTP string result as the TextContent list of the
standard-I/O transport. -/
def asTexts (r : String × List DevCall × Option Handle) :
    List String × List DevCall × Option Handle :=
  ([r.1], r.2.1, r.2.2)

/-- C5 amended: the two transports perform the same client-library calls and
produce the same result text for the purely textual operations they share —
outlet_on/off/cycle, get_outlet_state, get_all_outlet_states,
set_outlet_name, bulk_outlet_operation and the autoping
update/delete/enable/disable operations — but not for autoping_list_entries
(nor for the operations whose HTTP variant returns a mapping or interpolates
with str instead of json.dumps), whose renderings differ (see the
counterexample). -/
theorem C5_amended_transport_equivalence :
    (∀ (env : Env) (cached : Option Handle) (d : Device) (i : Int) (args : Args),
        args.outlet_id = some i →
        call_tool env cached d "outlet_on" args = asTexts (outlet_on env cached d i))
    ∧ (∀ (env : Env) (cached : Option Handle) (d : Device) (i : Int) (args : Args),
        args.outlet_id = some i →
        call_tool env cached d "outlet_off" args = asTexts (outlet_off env cached d i))
    ∧ (∀ (env : Env) (cached : Option Handle) (d : Device) (i : Int) (args : Args),
        args.outlet_id = some i →
        call_tool env cached d "outlet_cycle" args = asTexts (outlet_cycle env cached d i))
    ∧ (∀ (env : Env) (cached : Option Handle) (d : Device) (i : Int) (args : Args),
        args.outlet_id = some i →
        call_tool env cached d "get_outlet_state" args = asTexts (get_outlet_state env cached d i))
    ∧ (∀ (env : Env) (cached : Option Handle) (d : Device) (args : Args),
        call_tool env cached d "get_all_outlet_states" args
          = asTexts (get_all_outlet_states env cached d))
    ∧ (∀ (env : Env) (cached : Option Handle) (d : Device) (i : Int) (nm : String) (args : Args),
        args.outlet_id = some i → args.name = some nm →
        call_tool env cached d "set_outlet_name" args
          = asTexts (set_outlet_name env cached d i nm))
    ∧ (∀ (env : Env) (cached : Option Handle) (d : Device) (a : String)
        (oids : Option (List Int)) (args : Args),
        args.action = some a → args.outlet_ids = oids →
        call_tool env cached d "bulk_outlet_operation" args
          = asTexts (bulk_outlet_operation env cached d a oids))
    ∧ (∀ (env : Env) (cached : Option Handle) (d : Device) (eid : Int) (args : Args),
        args.entry_id = some eid →
        call_tool env cached d "autoping_update_entry" args
          = asTexts (autoping_update_entry env cached d eid args.host args.outlet_id
              args.enabled args.interval args.retries))
    ∧ (∀ (env : Env) (cached : Option Handle) (d : Device) (eid : Int) (args : Args),
        args.entry_id = some eid →
        call_tool env cached d "autoping_delete_entry" args
          = asTexts (autoping_delete_entry env cached d eid))
    ∧ (∀ (env : Env) (cached : Option Handle) (d : Device) (eid : Int) (args : Args),
        args.entry_id = some eid →
        call_tool env cached d "autoping_enable_entry" args
          = asTexts (autoping_enable_entry env cached d eid))
    ∧ (∀ (env : Env) (cached : Option Handle) (d : Device) (eid : Int) (args : Args),
        args.entry_id = some eid →
        call_tool env cached d "autoping_disable_entry" args
          = asTexts (autoping_disable_entry env cached d eid)) := by
  refine ⟨?_, ?_, ?_, ?_, ?_, ?_, ?_, ?_, ?_, ?_, ?_⟩
  · intro env cached d i args hi
    rcases hg : get_device env cached with ⟨e | h, c2⟩
    · simp [call_tool, outlet_on, runTryS, asTexts, hg]
    · rcases hr : d.onRes i with e | u <;>
        simp [call_tool, outlet_on, runTryS, asTexts, toolBody, hg, hi, liftE, req,
          M.bind_apply, M.pure_apply, devOn, emit, hr] <;> rfl
  · intro env cached d i args hi
    rcases hg : get_device env cached with ⟨e | h, c2⟩
    · simp [call_tool, outlet_off, runTryS, asTexts, hg]
    · rcases hr : d.offRes i with e | u <;>
        simp [call_tool, outlet_off, runTryS, asTexts, toolBody, hg, hi, liftE, req,
          M.bind_apply, M.pure_apply, devOff, emit, hr] <;> rfl
  · intro env cached d i args hi
    rcases hg : get_device env cached with ⟨e | h, c2⟩
    · simp [call_tool, outlet_cycle, runTryS, asTexts, hg]
    · rcases hr : d.cycleRes i with e | u <;>
        simp [call_tool, outlet_cycle, runTryS, asTexts, toolBody, hg, hi, liftE, req,
          M.bind_apply, M.pure_apply, devCycle, emit, hr] <;> rfl
  · intro env cached d i args hi
    rcases hg : get_device env cached with ⟨e | h, c2⟩
    · simp [call_tool, get_outlet_state, runTryS, asTexts, hg]
    · rcases hr : d.stateRes i with e | b <;>
        simp [call_tool, get_outlet_state, runTryS, asTexts, toolBody, hg, hi, liftE, req,
          M.bind_apply, M.pure_apply, devState, emit, hr] <;> rfl
  · intro env cached d args
    rcases hg : get_device env cached with ⟨e | h, c2⟩
    · simp [call_tool, get_all_outlet_states, runTryS, asTexts, hg]
    · rcases hr : d.allStatesRes with e | sts <;>
        simp [call_tool, get_all_outlet_states, runTryS, asTexts, toolBody, hg,
          M.bind_apply, M.pure_apply, devAllStates, emit, hr] <;> rfl
  · intro env cached d i nm args hi hn
    rcases hg : get_device env cached with ⟨e | h, c2⟩
    · simp [call_tool, set_outlet_name, runTryS, asTexts, hg]
    · rcases hr : d.setNameRes i nm with e | u <;>
        simp [call_tool, set_outlet_name, runTryS, asTexts, toolBody, hg, hi, hn, liftE, req,
          M.bind_apply, M.pure_apply, devSetName, emit, hr] <;> rfl
  · intro env cached d a oids args ha hids
    rcases hg : get_device env cached with ⟨e | h, c2⟩
    · simp [call_tool, bulk_outlet_operation, runTryS, asTexts, hg]
    · cases oids with
      | none =>
          rcases hr : d.bulkRes false a with e | u <;>
            simp [call_tool, bulk_outlet_operation, runTryS, asTexts, toolBody, hg, ha, hids,
              liftE, req, M.bind_apply, M.pure_apply, devBulk, emit, hr] <;> rfl
      | some ids =>
          rcases hb : bulkLoop d a ids [] with ⟨rb, trb⟩
          rcases rb with e | u <;>
            simp [call_tool, bulk_outlet_operation, runTryS, asTexts, toolBody, hg, ha, hids,
              liftE, req, M.bind_apply, M.pure_apply, hb] <;> rfl
  · intro env cached d eid args he
    rcases hg : get_device env cached with ⟨e | h, c2⟩
    · simp [call_tool, autoping_update_entry, runTryS, asTexts, hg]
    · rcases hr : d.apUpdateRes eid args.host args.outlet_id args.enabled args.interval
        args.retries with e | b <;>
        simp [call_tool, autoping_update_entry, runTryS, asTexts, toolBody, hg, he, liftE, req,
          M.bind_apply, M.pure_apply, devApUpdate, emit, hr] <;> rfl
  · intro env cached d eid args he
    rcases hg : get_device env cached with ⟨e | h, c2⟩
    · simp [call_tool, autoping_delete_entry, runTryS, asTexts, hg]
    · rcases hr : d.apDeleteRes eid with e | b <;>
        simp [call_tool, autoping_delete_entry, runTryS, asTexts, toolBody, hg, he, liftE, req,
          M.bind_apply, M.pure_apply, devApDelete, emit, hr] <;> rfl
  · intro env cached d eid args he
    rcases hg : get_device env cached with ⟨e | h, c2⟩
    · simp [call_tool, autoping_enable_entry, runTryS, asTexts, hg]
    · rcases hr : d.apEnableRes eid with e | b <;>
        simp [call_tool, autoping_enable_entry, runTryS, asTexts, toolBody, hg, he, liftE, req,
          M.bind_apply, M.pure_apply, devApEnable, emit, hr] <;> rfl
  · intro env cached d eid args he
    rcases hg : get_device env cached with ⟨e | h, c2⟩
    · simp [call_tool, autoping_disable_entry, runTryS, asTexts, hg]
    · rcases hr : d.apDisableRes eid with e | b <;>
        simp [call_tool, autoping_disable_entry, runTryS, asTexts, toolBody, hg, he, liftE, req,
          M.bind_apply, M.pure_apply, devApDisable, emit, hr] <;> rfl

/-- C5 amended witness: outlet_on at outlet 0 under env0 renders identically
through both transports. -/
theorem C5_amended_transport_equivalence_witness :
    call_tool env0 Option.none okDev "outlet_on" sampleArgs
      = asTexts (outlet_on env0 Option.none okDev 0) :=
  C5_amended_transport_equivalence.1 env0 Option.none okDev 0 sampleArgs rfl

/-! Claim C8: exit and mutation discipline of the setup script. -/

/-- C8: with credentials present in the environment and well-formed numeric
answers, the setup script (i) exits with status 1 when test_connection
returns false, (ii) exits with status 0 without calling add_entry when the
lowered operator answer to the confirmation prompt is not y, and (iii) makes
the add_entry call only when test_connection returned true and the operator
answered y. -/
theorem C8_setup_script_discipline :
    ∀ (env : Env) (d : SDevice) (ip oS iS rS confirm : String)
      (outletId interval retries : Int),
      falsyEnv (env "POWER_SWITCH_HOST") = false →
      falsyEnv (env "POWER_SWITCH_PASSWORD") = false →
      pyParseInt oS = .ok outletId →
      readIntDefault iS 60 = .ok interval →
      readIntDefault rS 3 = .ok retries →
      (d.testConnectionRes = .ok false →
        setupMain env d [ip, oS, iS, rS, confirm] = (.exited 1, [.testConnection]))
      ∧ (∀ entries, d.testConnectionRes = .ok true → d.listEntriesRes = .ok entries →
          allDicts entries = true → strLower confirm ≠ "y" →
          setupMain env d [ip, oS, iS, rS, confirm]
            = (.exited 0, [.testConnection, .listEntries]))
      ∧ (∀ (outcome : Outcome) (calls : List SCall),
          setupMain env d [ip, oS, iS, rS, confirm] = (outcome, calls) →
          ∀ (h : String) (o : Int) (en : Bool) (iv rt : Int),
            SCall.addEntry h o en iv rt ∈ calls →
            d.testConnectionRes = .ok true ∧ strLower confirm = "y") := by
  intro env d ip oS iS rS confirm outletId interval retries hfh hfp ho hint hret
  have hp : promptsPhase env [ip, oS, iS, rS, confirm]
      = .ok ((env "POWER_SWITCH_HOST").getD "", (env "POWER_SWITCH_USERNAME").getD "admin",
          (env "POWER_SWITCH_PASSWORD").getD "", ip, outletId, interval, retries,
          [confirm]) := by
    simp [promptsPhase, hfh, hfp, takeInput, ho, hint, hret]
  refine ⟨?_, ?_, ?_⟩
  · intro htc
    simp [setupMain, hp, htc]
  · intro entries htc hle hall hne
    simp [setupMain, hp, htc, hle, hall, takeInput, hne]
  · intro outcome calls hrun h o en iv rt hmem
    rcases htc : d.testConnectionRes with e | b
    · simp [setupMain, hp, htc] at hrun
      rw [← hrun.2] at hmem
      simp at hmem
    · cases b
      · simp [setupMain, hp, htc] at hrun
        rw [← hrun.2] at hmem
        simp at hmem
      · rcases hle : d.listEntriesRes with e | entries
        · simp [setupMain, hp, htc, hle] at hrun
          rw [← hrun.2] at hmem
          simp at hmem
        · rcases hall : allDicts entries with _ | _
          · simp [setupMain, hp, htc, hle, hall] at hrun
            rw [← hrun.2] at hmem
            simp at hmem
          · by_cases hy : strLower confirm = "y"
            · exact ⟨rfl, hy⟩
            · simp [setupMain, hp, htc, hle, hall, takeInput, hy] at hrun
              rw [← hrun.2] at hmem
              simp at hmem

/-- A script device that connects, lists nothing and accepts new entries. -/
def sDevOk : SDevice where
  testConnectionRes := .ok true
  listEntriesRes := .ok []
  addEntryRes := fun _ _ _ _ _ => .ok (.dict [("id", .int 0)])

/-- A script device whose connectivity verification fails. -/
def sDevNoConn : SDevice where
  testConnectionRes := .ok false
  listEntriesRes := .ok []
  addEntryRes := fun _ _ _ _ _ => .ok (.dict [("id", .int 0)])

/-- C8 witness: under env0 with answers (ip, outlet 3, defaults, decline n)
the script exits 0 after only the connectivity check and the listing; with a
failing connectivity check it exits 1 after the check alone. -/
theorem C8_setup_script_discipline_witness :
    setupMain env0 sDevOk ["10.0.0.7", "3", "", "", "n"]
      = (.exited 0, [.testConnection, .listEntries])
    ∧ setupMain env0 sDevNoConn ["10.0.0.7", "3", "", "", "n"]
      = (.exited 1, [.testConnection]) :=
  ⟨(C8_setup_script_discipline env0 sDevOk "10.0.0.7" "3" "" "" "n" 3 60 3
      (by decide) (by decide) (by decide) (by decide) (by decide)).2.1 []
      rfl rfl rfl (by decide),
   (C8_setup_script_discipline env0 sDevNoConn "10.0.0.7" "3" "" "" "n" 3 60 3
      (by decide) (by decide) (by decide) (by decide) (by decide)).1 rfl⟩
